import Mathlib

/-!
Verification development for the sortseek indexing and retrieval core.

The definitions below are a shallow embedding of the Python services in
`src/backend/services/file_service.py` and `src/backend/services/search_service.py`
together with the `Document` record of `src/backend/models.py`.

Modelling conventions, used throughout:
* Python strings are `String`, manipulated through their character lists so that
  every operation is structurally recursive and kernel-evaluable.
* Python `None` is `Option.none`; a nullable string field is `Option String`.
* Python floats appearing in scores are modelled as `ℚ` (they are only built by
  subtraction, multiplication, `min`/`max` and comparisons, all exact here);
  file timestamps are opaque values only ever compared for equality and are
  modelled as `Int`.
* A raised exception that a surrounding `try/except` turns into a sentinel value
  is modelled by that sentinel (`none`, or `Except.error`), as noted per
  definition.
-/

namespace SortSeek

/-! ## String primitives (Python `str` operations used by the services) -/

/-- Python `str.lower()` on the ASCII names this code compares. -/
def pyLower (s : String) : String := ⟨s.data.map Char.toLower⟩

/-- Leading-whitespace removal, the front half of Python `str.strip()`. -/
def stripLead (l : List Char) : List Char := l.dropWhile Char.isWhitespace

/-- Trailing-whitespace removal, the back half of Python `str.strip()`,
written structurally (equivalent to reversing, dropping, reversing). -/
def stripTrail : List Char → List Char
  | [] => []
  | c :: rest =>
    match stripTrail rest with
    | [] => if c.isWhitespace then [] else [c]
    | r => c :: r

/-- Python `str.strip()` on a character list. -/
def stripChars (l : List Char) : List Char := stripTrail (stripLead l)

/-- Python `str.strip()`. -/
def pyStrip (s : String) : String := ⟨stripChars s.data⟩

/-- One step of collapsing whitespace runs; the flag records whether the
previous character was whitespace (pattern `\s+` replaced by one space). -/
def collapseWsAux : Bool → List Char → List Char
  | _, [] => []
  | prevWs, c :: rest =>
    if c.isWhitespace then
      if prevWs then collapseWsAux true rest
      else ' ' :: collapseWsAux true rest
    else c :: collapseWsAux false rest

/-- `SearchService._normalize_filename`: lowercase, strip, then collapse every
whitespace run to a single space (the source's `re.sub` of `\s+` by a space). -/
def normalizeFilename (s : String) : String :=
  ⟨collapseWsAux false (stripChars (s.data.map Char.toLower))⟩

/-- Substring occurrence of `needle` inside a suffix scan of the haystack. -/
def isSubAux (needle : List Char) : List Char → Bool
  | [] => needle.isEmpty
  | c :: rest => needle.isPrefixOf (c :: rest) || isSubAux needle rest

/-- Python `needle in hay` on strings. -/
def pyIn (needle hay : String) : Bool := isSubAux needle.data hay.data

/-- Suffix of `l` strictly after its last `'.'` (used for `split(".")[-1]`). -/
def afterLastDot (l : List Char) : List Char :=
  (l.reverse.takeWhile (fun c => c != '.')).reverse

/-- Everything before the last `'.'`: Python
`s.rsplit('.', 1)[0] if '.' in s else s`, as used on normalized filenames. -/
def stripExt (s : String) : String :=
  if s.data.contains '.' then
    ⟨((s.data.reverse.dropWhile (fun c => c != '.')).drop 1).reverse⟩
  else s

/-! ## Filename boost (`SearchService._calculate_filename_boost`) -/

/-- The token loop of `_calculate_filename_boost`: the first query token that
matches at some tier returns that tier immediately (source lines 112-133).
Tier values are the source's literals 2.0, 1.8, 1.5, 1.3 as exact rationals. -/
def boostLoop (resultNorm : String) : List String → ℚ
  | [] => 1
  | q :: rest =>
    let qn := normalizeFilename q
    if resultNorm = qn then 2
    else
      let rName := stripExt resultNorm
      let qName := stripExt qn
      if rName = qName then 9/5
      else if pyIn qName rName || pyIn rName qName then 3/2
      else if pyIn qn resultNorm || pyIn resultNorm qn then 13/10
      else boostLoop resultNorm rest

/-- `SearchService._calculate_filename_boost(result_filename, query_filenames)`. -/
def calcFilenameBoost (resultFilename : String) (queryFilenames : List String) : ℚ :=
  if queryFilenames.isEmpty then 1
  else boostLoop (normalizeFilename resultFilename) queryFilenames

/-! ## Data model (`src/backend/models.py`, class `Document`) -/

/-- The `documents` row as the services read and write it.  `created_at` is
never consulted by the indexing logic and is omitted; nullable columns are
`Option`; timestamps are opaque `Int` values (only compared for equality). -/
structure DocRecord where
  id : Int
  filename : String
  file_path : String
  file_type : String
  file_size : Int
  content : Option String
  summary : Option String
  is_indexed : Bool
  embedding_path : Option String
  imported_at : Option Int
  updated_at : Option Int
  modified_time : Option Int
  file_hash : Option String
  last_indexed_at : Option Int
  deriving Repr, DecidableEq

/-- Python falsiness of an optional string: `not s` holds for `None` and `""`. -/
def pyFalsyOpt : Option String → Bool
  | none => true
  | some s => s = ""

/-- The emptiness test `not s or len(s.strip()) == 0` used on document content
and summaries: true for `None`, `""` and whitespace-only strings. -/
def blankOpt : Option String → Bool
  | none => true
  | some s => pyStrip s = ""

/-! ## Change detection (`FileService`, lines 33-78) -/

/-- One snapshot of the three fingerprint probes on a file.
`statSize = none` models `Path.stat()` raising (the only call in
`_check_file_changed`'s `try` block that can raise); `mtime` and `hash` are
`none` exactly when `_get_file_modified_time` / `_calculate_file_hash` caught
an error and returned Python `None` (their own `except` branches). -/
structure FileStat where
  statSize : Option Int
  mtime : Option Int
  hash : Option String
  deriving Repr, DecidableEq

/-- `FileService._check_file_changed`: any fingerprint field differing from the
stored one means changed; an exception escaping the `try` (the stat call)
conservatively means changed. -/
def checkFileChanged (fs : FileStat) (d : DocRecord) : Bool :=
  match fs.statSize with
  | none => true
  | some sz =>
    decide (d.file_size ≠ sz) || decide (d.modified_time ≠ fs.mtime) ||
      decide (d.file_hash ≠ fs.hash)

/-- The reindex decision of `_import_single_file` lines 204-216: reindex when
`force` is set, otherwise exactly when `_check_file_changed` reports a change. -/
def shouldReindex (force : Bool) (fs : FileStat) (d : DocRecord) : Bool :=
  force || checkFileChanged fs d

/-! ## Chunking (`SearchService._create_chunks`, lines 198-253) -/

/-- The chunk metadata fields that influence indexing behaviour.  The search
path fills `chunk_index` (enumeration index over the splitter output); the
PDF path fills `page` instead.  The remaining metadata entries (filename,
paths, import timestamp, chunk size) are constant per document and never read
by the logic under proof, so they are not repeated here. -/
structure ChunkMeta where
  document_id : Int
  chunk_index : Option Nat
  page : Option Nat
  deriving Repr, DecidableEq

/-- `SearchService._create_chunks`.  The external
`RecursiveCharacterTextSplitter.split_text` is the parameter `split`
(`Except.error` models it raising, which the source turns into the fallback of
the whole text as one chunk with `chunk_index = 0`).  On the normal path a
chunk is kept only if it is non-empty and its stripped form has at least 50
characters, and the stripped form is what is kept (source lines 220-236). -/
def createChunks (split : String → Except Unit (List String)) (docId : Int)
    (text : String) : List (String × ChunkMeta) :=
  match split text with
  | .ok chunks =>
    chunks.enum.filterMap fun ic =>
      if ic.2 ≠ "" ∧ 50 ≤ (pyStrip ic.2).length then
        some (pyStrip ic.2, ⟨docId, some ic.1, none⟩)
      else none
  | .error _ => [(text, ⟨docId, some 0, none⟩)]

/-! ## Vector store (ChromaDB collection, as used by `SearchService`) -/

/-- One vector-store entry: its id string, the chunk text, and the
`document_id` from its metadata.  The embedding vector itself never influences
membership or counts and is omitted. -/
structure StoreEntry where
  id : String
  text : String
  document_id : Int
  deriving Repr, DecidableEq

/-- The ChromaDB collection contents. -/
abbrev VectorStore := List StoreEntry

/-- The id string `f"doc_{document.id}_chunk_{chunk_index}"` of source line 505. -/
def chunkEntryId (docId : Int) (idx : Nat) : String :=
  "doc_" ++ toString docId ++ "_chunk_" ++ toString idx

/-- `collection.add` for a single entry.  ChromaDB rejects an id that already
exists; the source wraps each add in `try/except` and merely logs the failure
(lines 508-518), so a duplicate id leaves the store unchanged. -/
def storeAdd (store : VectorStore) (e : StoreEntry) : VectorStore :=
  if store.any (fun x => x.id == e.id) then store else store ++ [e]

/-- Number of vector-store entries whose metadata belongs to `docId`. -/
def docEntryCount (store : VectorStore) (docId : Int) : Nat :=
  (store.filter (fun e => e.document_id == docId)).length

/-- `SearchService.index_document_chunks` (lines 469-523): drop chunks whose
stripped text is empty, then add one entry per remaining chunk, keyed by
`chunk_index` when the metadata has it and by the enumeration position
otherwise.  No existing entry of the document is deleted. -/
def indexDocumentChunks (store : VectorStore) (docId : Int)
    (chunks : List (String × ChunkMeta)) : VectorStore :=
  let valid := chunks.filter fun c => !(pyStrip c.1 == "")
  if valid.isEmpty then store
  else
    valid.enum.foldl
      (fun st ic =>
        storeAdd st ⟨chunkEntryId docId (ic.2.2.chunk_index.getD ic.1), ic.2.1,
          ic.2.2.document_id⟩)
      store

/-! ## Indexing one document (`SearchService.index_document`, lines 319-408) -/

/-- External collaborators of `index_document`: whether `self._collection` is
initialized, the result of the fresh `FileService._extract_content` call
(`none` models both a raised-and-caught error and a `None` return), the text
splitter, and the clock used for `last_indexed_at`. -/
structure IndexEnv where
  collectionReady : Bool
  reExtract : Option String
  split : String → Except Unit (List String)
  now : Int

/-- The content-resolution steps of `index_document` (lines 329-368): use the
document content if non-blank; else the summary if non-blank; else a fresh
extraction, which when non-blank is also written back into the document's
`content` column (lines 350-356); otherwise the operation has nothing to index. -/
def resolveContent (env : IndexEnv) (d : DocRecord) : Option (String × DocRecord) :=
  if ¬ blankOpt d.content then some (d.content.getD "", d)
  else if ¬ blankOpt d.summary then some (d.summary.getD "", d)
  else
    match env.reExtract with
    | some s => if pyStrip s ≠ "" then some (s, { d with content := some s }) else none
    | none => none

/-- `SearchService.index_document`: resolve content (returning unchanged on
blank content after all fallbacks, and likewise when the collection is not
initialized or no chunk survives `_create_chunks`), otherwise add the chunk
entries and mark the document indexed with a fresh `last_indexed_at` and
`embedding_path` (lines 382-403).  Returns the store and the document row as
the database now holds it. -/
def indexDocument (env : IndexEnv) (store : VectorStore) (d : DocRecord) :
    VectorStore × DocRecord :=
  match resolveContent env d with
  | none => (store, d)
  | some (content, d1) =>
    if ¬ env.collectionReady then (store, d1)
    else
      let chunks := createChunks env.split d1.id content
      if chunks.isEmpty then (store, d1)
      else
        let store1 := indexDocumentChunks store d1.id chunks
        (store1,
          { d1 with
            is_indexed := true,
            embedding_path := some ("doc_" ++ toString d1.id ++ "_chunked"),
            last_indexed_at := some env.now })

/-! ## Importing one file (`FileService._import_single_file`, lines 197-299) -/

/-- Identity of the file being imported: path, `Path.name`, and
`Path.suffix.lower()`. -/
structure FileInfo where
  path : String
  name : String
  ext : String
  deriving Repr, DecidableEq

/-- External collaborators of `_import_single_file`: the fingerprint probes,
the import-time `_extract_content` result, the `extract_pdf_chunks` result
(page number and page text), whether a `SearchService` was injected, the id the
database would assign to a new row, the clock, and the nested `index_document`
environment. -/
structure ImportEnv where
  fs : FileStat
  extract : Option String
  pdfChunks : List (Nat × String)
  hasSearchService : Bool
  newId : Int
  now : Int
  index : IndexEnv

/-- The database row, the vector store, and one history variable:
`fpAtLastSuccess` records the document's stored fingerprint at the moment the
code last marked it indexed (`is_indexed := true`).  The ghost field is write-
only bookkeeping used to state the spec's `fingerprint at time of last
successful indexing`; it influences nothing. -/
structure SysState where
  db : Option DocRecord
  store : VectorStore
  fpAtLastSuccess : Option (Int × Option Int × Option String)
  deriving Repr, DecidableEq

/-- The stored fingerprint triple of a document row. -/
def docFingerprint (d : DocRecord) : Int × Option Int × Option String :=
  (d.file_size, d.modified_time, d.file_hash)

/-- The per-file-type indexing step at the end of `_import_single_file`
(lines 275-293): nothing without a search service; PDFs go through
`index_document_chunks` with page metadata (and never touch the document row);
DOCX/TXT go through `index_document`.  The ghost fingerprint is recorded when
`index_document` marked the row indexed. -/
def indexStep (env : ImportEnv) (fi : FileInfo) (d : DocRecord) (st : SysState) :
    Option DocRecord × SysState :=
  if ¬ env.hasSearchService then (some d, st)
  else if fi.ext = ".pdf" then
    if env.pdfChunks.isEmpty then (some d, st)
    else
      let chunks := env.pdfChunks.map fun pt =>
        (pt.2, ({ document_id := d.id, chunk_index := none, page := some pt.1 } : ChunkMeta))
      (some d, { st with store := indexDocumentChunks st.store d.id chunks })
  else if fi.ext = ".docx" ∨ fi.ext = ".txt" then
    let r := indexDocument env.index st.store d
    (some r.2,
      { db := some r.2, store := r.1,
        fpAtLastSuccess :=
          if r.2.is_indexed then some (docFingerprint r.2) else st.fpAtLastSuccess })
  else (some d, st)

/-- `FileService._import_single_file(file_path, force)`.  For an existing row:
skip untouched unless forced or changed; re-extract (returning the old row
untouched if extraction yields nothing); update content, fingerprint fields and
`updated_at`, clear `is_indexed`/`embedding_path`; then run the indexing step.
For a new file: extract, insert the row with import-time fingerprint, then
index.  A `stat` failure raises out of the body and the outer `except` returns
`None` with nothing committed. -/
def importSingleFile (env : ImportEnv) (fi : FileInfo) (force : Bool)
    (st : SysState) : Option DocRecord × SysState :=
  match st.db with
  | some existing =>
    if ¬ force ∧ ¬ checkFileChanged env.fs existing then (some existing, st)
    else if pyFalsyOpt env.extract then (some existing, st)
    else
      match env.fs.statSize with
      | none => (none, st)
      | some sz =>
        let d1 := { existing with
          content := env.extract,
          file_size := sz,
          modified_time := env.fs.mtime,
          file_hash := env.fs.hash,
          is_indexed := false,
          embedding_path := none,
          updated_at := some env.now }
        indexStep env fi d1 { st with db := some d1 }
  | none =>
    if pyFalsyOpt env.extract then (none, st)
    else
      match env.fs.statSize with
      | none => (none, st)
      | some sz =>
        let d : DocRecord :=
          { id := env.newId, filename := fi.name, file_path := fi.path,
            file_type := fi.ext, file_size := sz, content := env.extract,
            summary := none, is_indexed := false, embedding_path := none,
            imported_at := some env.now, updated_at := some env.now,
            modified_time := env.fs.mtime, file_hash := env.fs.hash,
            last_indexed_at := none }
        indexStep env fi d { st with db := some d }

/-! ## Semantic search (`SearchService.semantic_search`, lines 625-713) -/

/-- `score = 1.0 - dist` of source line 666. -/
def rawScore (dist : ℚ) : ℚ := 1 - dist

/-- `max(0.0, min(1.0, x))` of source line 670. -/
def clamp01 (x : ℚ) : ℚ := max 0 (min 1 x)

/-- One raw ChromaDB hit: document text, the metadata fields the search reads,
and the similarity distance. -/
structure RawHit where
  text : String
  filename : String
  source_path : String
  filetype : String
  import_time : Option String
  page : Option Nat
  dist : ℚ
  deriving Repr, DecidableEq

/-- One entry of the `search_results` list built in lines 672-685. -/
structure SearchResultOut where
  filename : String
  file_path : String
  page : Option Nat
  content : String
  score : ℚ
  original_score : ℚ
  filename_boost : ℚ
  filetype : String
  import_time : Option String
  deriving Repr, DecidableEq

/-- The per-hit result construction of lines 665-685. -/
def buildHit (queryFilenames : List String) (h : RawHit) : SearchResultOut :=
  let score := rawScore h.dist
  let boost := calcFilenameBoost h.filename queryFilenames
  { filename := h.filename, file_path := h.source_path, page := h.page,
    content := h.text, score := clamp01 (score * boost), original_score := score,
    filename_boost := boost, filetype := h.filetype, import_time := h.import_time }

/-- Stable insertion before the first strictly smaller score (an element is
placed after every earlier element with an equal or larger score). -/
def insertDesc (r : SearchResultOut) : List SearchResultOut → List SearchResultOut
  | [] => [r]
  | x :: xs => if r.score ≥ x.score then r :: x :: xs else x :: insertDesc r xs

/-- `search_results.sort(key=score, reverse=True)` of line 688: a stable sort
by final score descending, written as stable insertion sort. -/
def sortDesc : List SearchResultOut → List SearchResultOut
  | [] => []
  | x :: xs => insertDesc x (sortDesc xs)

/-! ## Metadata filters (`SearchService._apply_filters`, lines 136-172) -/

/-- The `filters` dict of the API: string keys to string values (import-time
bounds are ISO strings compared lexicographically in the source). -/
abbrev Filters := List (String × String)

/-- Truthiness of the `import_time` metadata value (`None` and `""` are falsy,
skipping the time filters). -/
def optStrTruthy : Option String → Bool
  | none => false
  | some s => !(s == "")

/-- The `filetype` check (lines 150-157): the extension is the piece after the
last dot of the lowercased filename, or `""` without a dot, compared to the
lowercased requested value. -/
def passesFiletype (filters : Filters) (filenameLower : String) : Bool :=
  match filters.lookup "filetype" with
  | none => true
  | some v =>
    let ext : String :=
      if filenameLower.data.contains '.' then ⟨afterLastDot filenameLower.data⟩
      else ""
    ext == pyLower v

/-- The `folder` check (lines 159-161): substring match on the lowercased path. -/
def passesFolder (filters : Filters) (filePathLower : String) : Bool :=
  match filters.lookup "folder" with
  | none => true
  | some v => pyIn (pyLower v) filePathLower

/-- The `import_time_after` check (lines 163-166); skipped when the hit has no
truthy import time. -/
def passesAfter (filters : Filters) (importTime : Option String) : Bool :=
  match filters.lookup "import_time_after" with
  | none => true
  | some t => if optStrTruthy importTime then !decide (importTime.getD "" < t) else true

/-- The `import_time_before` check (lines 168-170). -/
def passesBefore (filters : Filters) (importTime : Option String) : Bool :=
  match filters.lookup "import_time_before" with
  | none => true
  | some t => if optStrTruthy importTime then !decide (t < importTime.getD "") else true

/-- The conjunction of the four checks: one loop iteration of `_apply_filters`
keeps a result exactly when no check hits `continue`. -/
def passesFilters (filters : Filters) (r : SearchResultOut) : Bool :=
  passesFiletype filters (pyLower r.filename) &&
    passesFolder filters (pyLower r.file_path) &&
    passesAfter filters r.import_time &&
    passesBefore filters r.import_time

/-- `SearchService._apply_filters`. -/
def applyFilters (results : List SearchResultOut) (filters : Filters) :
    List SearchResultOut :=
  results.filter (passesFilters filters)

/-- The result post-processing of `semantic_search` (lines 664-695): build the
per-hit records from the top-k raw hits, sort by final score descending, and
apply the filters when the dict is non-empty (`if filters:` skips the call for
an empty dict). -/
def semanticSearchResults (queryFilenames : List String) (hits : List RawHit)
    (filters : Filters) : List SearchResultOut :=
  let built := hits.map (buildHit queryFilenames)
  let sorted := sortDesc built
  if filters.isEmpty then sorted else applyFilters sorted filters

/-! ## Concrete scenarios used by the claim theorems and witnesses -/

/-- Document 1 is first indexed with two retained chunks (the PDF import path,
whose metadata carries `page` and no `chunk_index`). -/
def c1FirstChunks : List (String × ChunkMeta) :=
  [("alpha content", ⟨1, none, some 1⟩), ("beta content", ⟨1, none, some 2⟩)]

/-- On re-import the re-chunked content of document 1 is a single chunk. -/
def c1SecondChunks : List (String × ChunkMeta) :=
  [("gamma content", ⟨1, none, some 1⟩)]

/-- A stored row whose import-time hash and mtime probes had already failed
(`NULL` columns), with a matching size. -/
def c3Doc : DocRecord :=
  { id := 1, filename := "n.txt", file_path := "p/n.txt", file_type := ".txt",
    file_size := 100, content := some "c", summary := none, is_indexed := true,
    embedding_path := none, imported_at := some 1, updated_at := some 1,
    modified_time := none, file_hash := none, last_indexed_at := some 1 }

/-- A document with no content and no summary. -/
def c4Doc : DocRecord :=
  { id := 3, filename := "e.txt", file_path := "p/e.txt", file_type := ".txt",
    file_size := 0, content := none, summary := none, is_indexed := false,
    embedding_path := none, imported_at := some 1, updated_at := some 1,
    modified_time := some 1, file_hash := some "h", last_indexed_at := none }

/-- An environment in which the fresh extraction also fails. -/
def c4Env : IndexEnv :=
  { collectionReady := true, reExtract := none, split := fun s => .ok [s], now := 9 }

/-- A document with non-blank content, for the C4 witness. -/
def c4DocC : DocRecord :=
  { c4Doc with id := 31, content := some "full text", summary := some "sum" }

/-- A document with blank content but a non-blank summary, for the C4 witness. -/
def c4DocS : DocRecord :=
  { c4Doc with id := 32, content := none, summary := some "summary text" }

/-- A 60-character chunk for the witness. -/
def c7Long : String :=
  "this sample chunk text is exactly sixty characters long okay"

/-- An indexed row whose last successful indexing stored fingerprint
`(10, 100, "aaaa")`. -/
def c2Doc0 : DocRecord :=
  { id := 1, filename := "n.txt", file_path := "p/n.txt", file_type := ".txt",
    file_size := 10, content := some "old content of the document",
    summary := none, is_indexed := true, embedding_path := some "doc_1_chunked",
    imported_at := some 1, updated_at := some 1, modified_time := some 100,
    file_hash := some "aaaa", last_indexed_at := some 1 }

/-- System state after that first successful indexing run. -/
def c2St0 : SysState :=
  { db := some c2Doc0, store := [], fpAtLastSuccess := some (10, some 100, some "aaaa") }

/-- The file has changed to fingerprint `(12, 200, "bbbb")` but its new content
is 4 characters, so every chunk is dropped by the 50-character filter and the
indexing run ends without marking the row indexed. -/
def c2Env0 : ImportEnv :=
  { fs := ⟨some 12, some 200, some "bbbb"⟩, extract := some "tiny", pdfChunks := [],
    hasSearchService := true, newId := 2, now := 5,
    index := { collectionReady := true, reExtract := none,
               split := fun s => .ok [s], now := 5 } }

/-- The file being re-imported in the C2 scenario. -/
def c2Fi0 : FileInfo := ⟨"p/n.txt", "n.txt", ".txt"⟩

/-- The stored row of the C5 scenario. -/
def c5Doc : DocRecord :=
  { id := 4, filename := "u.txt", file_path := "p/u.txt", file_type := ".txt",
    file_size := 10, content := some "stable content", summary := none,
    is_indexed := true, embedding_path := some "doc_4_chunked",
    imported_at := some 1, updated_at := some 1, modified_time := some 100,
    file_hash := some "cafe", last_indexed_at := some 1 }

/-- State after the first import of the C5 file (three stored chunks). -/
def c5St : SysState :=
  { db := some c5Doc,
    store := [⟨chunkEntryId 4 0, "stable content", 4⟩],
    fpAtLastSuccess := some (10, some 100, some "cafe") }

/-- An environment whose probes match the stored fingerprint exactly. -/
def c5Env : ImportEnv :=
  { fs := ⟨some 10, some 100, some "cafe"⟩, extract := some "stable content",
    pdfChunks := [], hasSearchService := true, newId := 9, now := 77,
    index := { collectionReady := true, reExtract := none,
               split := fun s => .ok [s], now := 77 } }

/-- A raw hit at distance 0 for the C8 witness. -/
def c8Hit : RawHit :=
  { text := "some chunk text", filename := "w.txt", source_path := "p/w.txt",
    filetype := ".txt", import_time := some "2024-01-01", page := none, dist := 0 }

/-- Two hits of different types for the C9 witness. -/
def c9Pdf : SearchResultOut :=
  { filename := "a.pdf", file_path := "docs/a.pdf", page := some 1,
    content := "x", score := 1, original_score := 1, filename_boost := 1,
    filetype := ".pdf", import_time := some "2024-01-01" }

/-- A text hit for the C9 witness. -/
def c9Txt : SearchResultOut :=
  { filename := "b.txt", file_path := "docs/b.txt", page := none,
    content := "y", score := 1, original_score := 1, filename_boost := 1,
    filetype := ".txt", import_time := some "2024-01-02" }

/-! ## Helper lemmas -/

/-- The head surviving `dropWhile` does not satisfy the predicate. -/
lemma dropWhile_head_not (p : Char → Bool) :
    ∀ (l : List Char) (c : Char) (r : List Char), l.dropWhile p = c :: r → p c = false := by
  intro l
  induction l with
  | nil => intro c r h; simp [List.dropWhile] at h
  | cons a t ih =>
    intro c r h
    by_cases ha : p a
    · rw [List.dropWhile_cons_of_pos ha] at h
      exact ih c r h
    · rw [List.dropWhile_cons_of_neg ha] at h
      cases h
      simpa using ha

/-- `stripTrail` returns a prefix of its argument, so a non-empty result starts
with the original head. -/
lemma stripTrail_cons (c : Char) (r : List Char) :
    ∀ l : List Char, stripTrail l = c :: r → ∃ t, l = c :: t := by
  intro l
  induction l with
  | nil => intro h; simp [stripTrail] at h
  | cons a t _ =>
    intro h
    rw [stripTrail] at h
    rcases hrec : stripTrail t with _ | ⟨b, bs⟩
    · rw [hrec] at h
      by_cases ha : a.isWhitespace
      · simp [ha] at h
      · simp [ha] at h
        exact ⟨t, by rw [h.1]⟩
    · rw [hrec] at h
      cases h
      exact ⟨t, rfl⟩

/-- `stripTrail` is idempotent. -/
lemma stripTrail_idem : ∀ l : List Char, stripTrail (stripTrail l) = stripTrail l := by
  intro l
  induction l with
  | nil => rfl
  | cons a t ih =>
    rw [stripTrail]
    rcases hrec : stripTrail t with _ | ⟨b, bs⟩
    · by_cases ha : a.isWhitespace
      · simp [ha, stripTrail]
      · simp [ha, stripTrail]
    · rw [stripTrail]
      rw [hrec] at ih
      rw [ih]

/-- Python `strip` is idempotent on character lists. -/
lemma stripChars_idem (l : List Char) : stripChars (stripChars l) = stripChars l := by
  unfold stripChars
  rcases hv : stripTrail (stripLead l) with _ | ⟨c, cs⟩
  · simp [stripLead, stripTrail]
  · have hlead : stripLead (c :: cs) = c :: cs := by
      obtain ⟨t, ht⟩ := stripTrail_cons c cs (stripLead l) hv
      have hc : c.isWhitespace = false :=
        dropWhile_head_not Char.isWhitespace l c t (by simpa [stripLead] using ht)
      simp [stripLead, List.dropWhile_cons, hc]
    rw [hlead, ← hv, stripTrail_idem]

/-- Python `strip` is idempotent. -/
lemma pyStrip_idem (s : String) : pyStrip (pyStrip s) = pyStrip s := by
  show (⟨stripChars (String.data ⟨stripChars s.data⟩)⟩ : String) = ⟨stripChars s.data⟩
  rw [show String.data ⟨stripChars s.data⟩ = stripChars s.data from rfl, stripChars_idem]

/-- Membership through stable insertion. -/
lemma mem_insertDesc (a r : SearchResultOut) :
    ∀ l : List SearchResultOut, a ∈ insertDesc r l ↔ a = r ∨ a ∈ l := by
  intro l
  induction l with
  | nil => simp [insertDesc]
  | cons x xs ih =>
    rw [insertDesc]
    by_cases hc : r.score ≥ x.score
    · simp [hc]
    · simp [hc, ih]
      tauto

/-- Sorting by score preserves membership. -/
lemma mem_sortDesc (a : SearchResultOut) :
    ∀ l : List SearchResultOut, a ∈ sortDesc l ↔ a ∈ l := by
  intro l
  induction l with
  | nil => simp [sortDesc]
  | cons x xs ih => rw [sortDesc, mem_insertDesc]; simp [ih]

/-- A key bound to no entry of an association list looks up to `none`. -/
lemma lookup_none_of_ne (k : String) :
    ∀ fs : Filters, (∀ kv ∈ fs, kv.1 ≠ k) → fs.lookup k = none := by
  intro fs
  induction fs with
  | nil => intro _; rfl
  | cons kv rest ih =>
    intro h
    have hk : (k == kv.1) = false := by
      have := h kv (by simp)
      simp [Ne.symm this]
    rw [List.lookup]
    simp only [hk]
    exact ih fun kv2 hm => h kv2 (by simp [hm])

/-- `clamp01` stays in the unit interval. -/
lemma clamp01_mem (x : ℚ) : 0 ≤ clamp01 x ∧ clamp01 x ≤ 1 := by
  constructor
  · exact le_max_left 0 _
  · exact max_le (by norm_num) (min_le_left 1 x)

/-! ## Claim C1 -/

/-- C1: FAILS on the code.  `index_document_chunks` never deletes the existing
vector-store entries of the document before inserting.  Re-indexing document 1
from two chunks down to one leaves the entry count at 2 instead of the new
chunk count 1 (the duplicate-id add of chunk 0 is swallowed by the per-chunk
`except`), and the stale chunk-1 entry with the old text survives. -/
theorem c1_stale_entries_survive_rechunk :
    docEntryCount
        (indexDocumentChunks (indexDocumentChunks [] 1 c1FirstChunks) 1 c1SecondChunks) 1 = 2
    ∧ c1SecondChunks.length = 1
    ∧ (⟨chunkEntryId 1 1, "beta content", 1⟩ : StoreEntry) ∈
        indexDocumentChunks (indexDocumentChunks [] 1 c1FirstChunks) 1 c1SecondChunks := by
  exact ⟨by decide, by decide, by decide⟩

/-! ## Claim C3 -/

/-- C3 counterexample: a snapshot whose mtime and hash computations both fail
(`_get_file_modified_time` and `_calculate_file_hash` return `None`) is a
fingerprinting failure, yet against `c3Doc` the decision is `unchanged`:
`None` compares equal to the stored `NULL` values and the size matches, so the
file is silently skipped instead of conservatively reindexed. -/
theorem c3_fingerprint_failure_can_skip :
    shouldReindex false ⟨some 100, none, none⟩ c3Doc = false
    ∧ (⟨some 100, none, none⟩ : FileStat).hash = none
    ∧ (⟨some 100, none, none⟩ : FileStat).mtime = none := by
  exact ⟨by decide, rfl, rfl⟩

/-- C3 (amended): `force` always reindexes; a stat exception inside the check
always reindexes; otherwise the decision is exactly `any fingerprint field
differs from the stored one`, which treats an mtime/hash computation failure as
a change only when the stored column is not also `NULL`. -/
theorem c3_reindex_decision :
    (∀ (fs : FileStat) (d : DocRecord), shouldReindex true fs d = true)
    ∧ (∀ (fs : FileStat) (d : DocRecord), fs.statSize = none →
        shouldReindex false fs d = true)
    ∧ (∀ (fs : FileStat) (d : DocRecord) (sz : Int), fs.statSize = some sz →
        (shouldReindex false fs d = true ↔
          d.file_size ≠ sz ∨ d.modified_time ≠ fs.mtime ∨ d.file_hash ≠ fs.hash)) := by
  refine ⟨fun fs d => rfl, fun fs d h => ?_, fun fs d sz h => ?_⟩
  · simp [shouldReindex, checkFileChanged, h]
  · simp [shouldReindex, checkFileChanged, h]
    tauto

/-- Witness for `c3_reindex_decision` at concrete inputs. -/
theorem c3_reindex_decision_witness :
    shouldReindex true ⟨some 100, none, none⟩ c3Doc = true
    ∧ shouldReindex false ⟨none, none, none⟩ c3Doc = true
    ∧ (shouldReindex false ⟨some 101, none, none⟩ c3Doc = true ↔
        c3Doc.file_size ≠ 101 ∨ c3Doc.modified_time ≠ none ∨ c3Doc.file_hash ≠ none) := by
  exact ⟨c3_reindex_decision.1 _ _, c3_reindex_decision.2.1 _ _ rfl,
    c3_reindex_decision.2.2 _ _ 101 rfl⟩

/-! ## Claim C4 -/

/-- C4 counterexample: when content, summary and the fresh extraction are all
empty, `index_document` returns without indexing but also without mutating the
document row at all — nothing is `marked FAILED` (the schema has no failure
state; `is_indexed` simply stays `false`). -/
theorem c4_no_failed_marking :
    indexDocument c4Env [] c4Doc = ([], c4Doc)
    ∧ c4Doc.content = none ∧ c4Doc.summary = none ∧ c4Env.reExtract = none
    ∧ c4Doc.is_indexed = false := by
  exact ⟨by decide, rfl, rfl, rfl, rfl⟩

/-- C4 (amended): `index_document` falls back in order from the document
content to the stored summary and then to a fresh extraction (a successful
fresh extraction is also written back into the `content` column); when all
three are empty it returns without indexing and without modifying the document
row or the store — the schema has no FAILED state to mark. -/
theorem c4_content_fallback_order :
    (∀ (env : IndexEnv) (d : DocRecord), blankOpt d.content = false →
        resolveContent env d = some (d.content.getD "", d))
    ∧ (∀ (env : IndexEnv) (d : DocRecord), blankOpt d.content = true →
        blankOpt d.summary = false →
        resolveContent env d = some (d.summary.getD "", d))
    ∧ (∀ (env : IndexEnv) (d : DocRecord) (s : String), blankOpt d.content = true →
        blankOpt d.summary = true → env.reExtract = some s → pyStrip s ≠ "" →
        resolveContent env d = some (s, { d with content := some s }))
    ∧ (∀ (env : IndexEnv) (store : VectorStore) (d : DocRecord),
        blankOpt d.content = true → blankOpt d.summary = true →
        (env.reExtract = none ∨ ∃ s, env.reExtract = some s ∧ pyStrip s = "") →
        indexDocument env store d = (store, d)) := by
  refine ⟨fun env d h => ?_, fun env d h1 h2 => ?_, fun env d s h1 h2 h3 h4 => ?_,
    fun env store d h1 h2 h3 => ?_⟩
  · simp [resolveContent, h]
  · simp [resolveContent, h1, h2]
  · simp [resolveContent, h1, h2, h3, h4]
  · have hres : resolveContent env d = none := by
      rcases h3 with hnone | ⟨s, hs, hstrip⟩
      · simp [resolveContent, h1, h2, hnone]
      · simp [resolveContent, h1, h2, hs, hstrip]
    simp [indexDocument, hres]

/-- Witness for `c4_content_fallback_order` on concrete documents. -/
theorem c4_content_fallback_order_witness :
    resolveContent c4Env c4DocC = some ("full text", c4DocC)
    ∧ resolveContent c4Env c4DocS = some ("summary text", c4DocS)
    ∧ resolveContent { c4Env with reExtract := some "fresh text" } c4Doc =
        some ("fresh text", { c4Doc with content := some "fresh text" })
    ∧ indexDocument c4Env [] c4Doc = ([], c4Doc) := by
  exact ⟨c4_content_fallback_order.1 c4Env c4DocC (by decide),
    c4_content_fallback_order.2.1 c4Env c4DocS (by decide) (by decide),
    c4_content_fallback_order.2.2.1 _ c4Doc "fresh text" (by decide) (by decide) rfl
      (by decide),
    c4_content_fallback_order.2.2.2 c4Env [] c4Doc (by decide) (by decide) (Or.inl rfl)⟩

/-! ## Claim C7 -/

/-- C7 counterexample: when the splitter raises, `_create_chunks` returns the
whole text as one chunk with no length filter, so a 2-character text is
retained even though it trims to far fewer than 50 characters. -/
theorem c7_fallback_keeps_short_chunk :
    createChunks (fun _ => .error ()) 1 "hi" = [("hi", ⟨1, some 0, none⟩)]
    ∧ (pyStrip "hi").length = 2 ∧ 2 < 50 := by
  exact ⟨by decide, by decide, by decide⟩

/-- C7 (amended): on the normal path — whenever the splitter returns instead of
raising — every retained chunk is stored in stripped form with at least 50
characters, so no retained chunk trims below 50. -/
theorem c7_normal_path_chunks_at_least_50 :
    ∀ (split : String → Except Unit (List String)) (docId : Int) (text : String)
      (l : List String) (cm : String × ChunkMeta),
      split text = .ok l →
      cm ∈ createChunks split docId text →
      50 ≤ cm.1.length ∧ pyStrip cm.1 = cm.1 := by
  intro split docId text l cm hsplit hmem
  unfold createChunks at hmem
  rw [hsplit] at hmem
  rw [List.mem_filterMap] at hmem
  obtain ⟨ic, _, hic⟩ := hmem
  by_cases hcond : ic.2 ≠ "" ∧ 50 ≤ (pyStrip ic.2).length
  · rw [if_pos hcond] at hic
    cases hic
    exact ⟨hcond.2, pyStrip_idem ic.2⟩
  · rw [if_neg hcond] at hic
    cases hic

/-- Witness for `c7_normal_path_chunks_at_least_50` on a concrete splitter
output. -/
theorem c7_normal_path_witness :
    50 ≤ (pyStrip c7Long).length ∧ pyStrip (pyStrip c7Long) = pyStrip c7Long := by
  have h := c7_normal_path_chunks_at_least_50 (fun _ => .ok [c7Long]) 7 "t" [c7Long]
    (pyStrip c7Long, ⟨7, some 0, none⟩) rfl (by decide)
  exact ⟨h.1, h.2⟩

/-! ## Claim C2 -/

/-- Content resolution never touches the fingerprint columns. -/
lemma resolveContent_fp (env : IndexEnv) (d : DocRecord) (c : String) (d1 : DocRecord)
    (h : resolveContent env d = some (c, d1)) : docFingerprint d1 = docFingerprint d := by
  unfold resolveContent at h
  split at h
  · simp only [Option.some.injEq, Prod.mk.injEq] at h
    rw [← h.2]
  · split at h
    · simp only [Option.some.injEq, Prod.mk.injEq] at h
      rw [← h.2]
    · split at h
      · split at h
        · simp only [Option.some.injEq, Prod.mk.injEq] at h
          rw [← h.2]
          rfl
        · cases h
      · cases h

/-- `index_document` never writes the fingerprint columns: the row it leaves
behind carries exactly the fingerprint it was called with. -/
lemma indexDocument_fp (env : IndexEnv) (store : VectorStore) (d : DocRecord) :
    docFingerprint (indexDocument env store d).2 = docFingerprint d := by
  rcases hr : resolveContent env d with _ | ⟨c, d1⟩
  · simp only [indexDocument, hr]
  · have hfp := resolveContent_fp env d c d1 hr
    simp only [indexDocument, hr]
    split
    · exact hfp
    · split
      · exact hfp
      · exact hfp

/-- The indexing step at the end of `_import_single_file` leaves a database row
whose fingerprint is the one written at import time. -/
lemma indexStep_db (env : ImportEnv) (fi : FileInfo) (d : DocRecord) (st : SysState)
    (h : st.db = some d) :
    ∃ d', (indexStep env fi d st).2.db = some d' ∧ docFingerprint d' = docFingerprint d := by
  unfold indexStep
  split
  · exact ⟨d, h, rfl⟩
  · split
    · split
      · exact ⟨d, h, rfl⟩
      · exact ⟨d, h, rfl⟩
    · split
      · exact ⟨(indexDocument env.index st.store d).2, rfl, indexDocument_fp _ _ _⟩
      · exact ⟨d, h, rfl⟩

/-- C2 counterexample: re-importing the changed file stores the new fingerprint
`(12, 200, "bbbb")` at import time even though the subsequent indexing run
fails (the row ends with `is_indexed = false`), while the fingerprint at the
time of the last successful indexing is still `(10, 100, "aaaa")`.  The stored
fingerprint is the import-time one, not the last-successful-indexing one. -/
theorem c2_fingerprint_is_import_time :
    (importSingleFile c2Env0 c2Fi0 false c2St0).2.db.map docFingerprint =
      some (12, some 200, some "bbbb")
    ∧ (importSingleFile c2Env0 c2Fi0 false c2St0).2.fpAtLastSuccess =
      some (10, some 100, some "aaaa")
    ∧ (importSingleFile c2Env0 c2Fi0 false c2St0).2.db.map DocRecord.is_indexed =
      some false
    ∧ ((12 : Int), (some 200 : Option Int), (some "bbbb" : Option String)) ≠
      (10, some 100, some "aaaa") := by
  exact ⟨by decide, by decide, by decide, by decide⟩

/-- C2 (amended): the fingerprint columns are computed and persisted by
`_import_single_file` before indexing runs, and a successful `index_document`
updates only `is_indexed`, `embedding_path` and `last_indexed_at` — so after
any import of a changed (or forced) file the stored fingerprint is the one
taken at import time, whether or not indexing then succeeds. -/
theorem c2_fingerprint_written_at_import :
    (∀ (env : IndexEnv) (store : VectorStore) (d : DocRecord),
        docFingerprint (indexDocument env store d).2 = docFingerprint d)
    ∧ (∀ (env : ImportEnv) (fi : FileInfo) (force : Bool) (st : SysState)
        (existing : DocRecord) (sz : Int),
        st.db = some existing →
        env.fs.statSize = some sz →
        (force = true ∨ checkFileChanged env.fs existing = true) →
        pyFalsyOpt env.extract = false →
        ∃ d', (importSingleFile env fi force st).2.db = some d' ∧
          docFingerprint d' = (sz, env.fs.mtime, env.fs.hash)) := by
  constructor
  · exact indexDocument_fp
  · intro env fi force st existing sz hdb hsz hforce hextract
    have hc1 : (¬ force = true ∧ ¬ checkFileChanged env.fs existing = true) = False := by
      rcases hforce with h | h <;> simp [h]
    simp only [importSingleFile, hdb, hc1, if_false, hextract, Bool.false_eq_true, hsz]
    obtain ⟨d', hd', hfp⟩ :=
      indexStep_db env fi
        ({ existing with
            content := env.extract, file_size := sz,
            modified_time := env.fs.mtime, file_hash := env.fs.hash,
            is_indexed := false, embedding_path := none, updated_at := some env.now })
        ({ st with
            db := some { existing with
              content := env.extract, file_size := sz,
              modified_time := env.fs.mtime, file_hash := env.fs.hash,
              is_indexed := false, embedding_path := none, updated_at := some env.now } })
        rfl
    exact ⟨d', hd', by rw [hfp]; rfl⟩

/-- Witness for `c2_fingerprint_written_at_import` on the concrete C2 run. -/
theorem c2_fingerprint_written_at_import_witness :
    ∃ d', (importSingleFile c2Env0 c2Fi0 false c2St0).2.db = some d' ∧
      docFingerprint d' = (12, some 200, some "bbbb") := by
  exact c2_fingerprint_written_at_import.2 c2Env0 c2Fi0 false c2St0 c2Doc0 12
    rfl rfl (Or.inr (by decide)) rfl

/-! ## Claim C5 -/

/-- C5: a second import of an unchanged file (every current fingerprint probe
equal to the stored column) with `force = false` is a no-op — it returns the
stored row and leaves the database row, the vector store (hence the document's
chunk count) and the stored fingerprint exactly as they were. -/
theorem c5_unchanged_reimport_noop :
    ∀ (env : ImportEnv) (fi : FileInfo) (st : SysState) (d : DocRecord),
      st.db = some d →
      env.fs.statSize = some d.file_size →
      env.fs.mtime = d.modified_time →
      env.fs.hash = d.file_hash →
      importSingleFile env fi false st = (some d, st) := by
  intro env fi st d hdb hsz hmt hh
  have hchanged : checkFileChanged env.fs d = false := by
    simp [checkFileChanged, hsz, hmt, hh]
  simp [importSingleFile, hdb, hchanged]

/-- Witness for `c5_unchanged_reimport_noop` on the concrete scenario. -/
theorem c5_unchanged_reimport_noop_witness :
    importSingleFile c5Env ⟨"p/u.txt", "u.txt", ".txt"⟩ false c5St = (some c5Doc, c5St) := by
  exact c5_unchanged_reimport_noop c5Env ⟨"p/u.txt", "u.txt", ".txt"⟩ c5St c5Doc
    rfl rfl rfl rfl

/-! ## Claim C6 -/

/-- The boost of a one-token query list, with every branch spelled out. -/
lemma calcBoost_single (fn t : String) :
    calcFilenameBoost fn [t] =
      (if normalizeFilename fn = normalizeFilename t then 2
       else if stripExt (normalizeFilename fn) = stripExt (normalizeFilename t) then 9/5
       else if pyIn (stripExt (normalizeFilename t)) (stripExt (normalizeFilename fn)) ||
           pyIn (stripExt (normalizeFilename fn)) (stripExt (normalizeFilename t)) then 3/2
       else if pyIn (normalizeFilename t) (normalizeFilename fn) ||
           pyIn (normalizeFilename fn) (normalizeFilename t) then 13/10
       else 1) := rfl

/-- C6 counterexample: with token list `["xab", "ab.pdf"]` (which contains the
token `ab.pdf`), the hit whose filename is exactly `ab.pdf` gets boost 1.5 —
not 2.0 — while the hit `xab.pdf`, of which `ab.pdf` is merely a substring,
gets the strictly larger boost 1.8: the first matching token wins, so the
tier-per-relationship reading and the strict monotonicity both fail on
multi-token queries. -/
theorem c6_boost_not_tier_of_relationship :
    calcFilenameBoost "ab.pdf" ["xab", "ab.pdf"] = 3/2
    ∧ calcFilenameBoost "xab.pdf" ["xab", "ab.pdf"] = 9/5
    ∧ pyIn "ab.pdf" "xab.pdf" = true
    ∧ (3/2 : ℚ) < 9/5 ∧ (3/2 : ℚ) ≠ 2 := by
  exact ⟨rfl, rfl, by decide, by norm_num, by norm_num⟩

/-- C6 (amended): the tier values and the exact > substring > non-match
ordering hold for a single-token query list: an exact normalized match returns
2.0; a filename of which the token is a proper substring returns 1.8, 1.5 or
1.3 (all strictly between 1 and 2); a filename matching no tier returns 1.0;
and the tiers are strictly ordered 1 < 1.3 < 1.5 < 1.8 < 2. -/
theorem c6_single_token_tiers :
    (∀ fn t : String, normalizeFilename fn = normalizeFilename t →
        calcFilenameBoost fn [t] = 2)
    ∧ (∀ fn t : String, normalizeFilename fn ≠ normalizeFilename t →
        pyIn (normalizeFilename t) (normalizeFilename fn) = true →
        (calcFilenameBoost fn [t] = 9/5 ∨ calcFilenameBoost fn [t] = 3/2 ∨
          calcFilenameBoost fn [t] = 13/10))
    ∧ (∀ fn t : String, normalizeFilename fn ≠ normalizeFilename t →
        stripExt (normalizeFilename fn) ≠ stripExt (normalizeFilename t) →
        pyIn (stripExt (normalizeFilename t)) (stripExt (normalizeFilename fn)) = false →
        pyIn (stripExt (normalizeFilename fn)) (stripExt (normalizeFilename t)) = false →
        pyIn (normalizeFilename t) (normalizeFilename fn) = false →
        pyIn (normalizeFilename fn) (normalizeFilename t) = false →
        calcFilenameBoost fn [t] = 1)
    ∧ ((1 : ℚ) < 13/10 ∧ (13/10 : ℚ) < 3/2 ∧ (3/2 : ℚ) < 9/5 ∧ (9/5 : ℚ) < 2) := by
  refine ⟨fun fn t h => ?_, fun fn t h1 h2 => ?_, fun fn t h1 h2 h3 h4 h5 h6 => ?_,
    by norm_num, by norm_num, by norm_num, by norm_num⟩
  · rw [calcBoost_single, if_pos h]
  · rw [calcBoost_single, if_neg h1]
    by_cases hname : stripExt (normalizeFilename fn) = stripExt (normalizeFilename t)
    · rw [if_pos hname]
      exact Or.inl rfl
    · rw [if_neg hname]
      by_cases hcont : pyIn (stripExt (normalizeFilename t)) (stripExt (normalizeFilename fn)) ||
          pyIn (stripExt (normalizeFilename fn)) (stripExt (normalizeFilename t))
      · rw [if_pos hcont]
        exact Or.inr (Or.inl rfl)
      · rw [if_neg hcont, if_pos (by simp [h2])]
        exact Or.inr (Or.inr rfl)
  · rw [calcBoost_single, if_neg h1, if_neg h2, if_neg (by simp [h3, h4]),
      if_neg (by simp [h5, h6])]

/-- Witness for `c6_single_token_tiers` at concrete single-token queries. -/
theorem c6_single_token_tiers_witness :
    calcFilenameBoost "A" ["a "] = 2
    ∧ (calcFilenameBoost "xab.pdf" ["xab"] = 9/5 ∨ calcFilenameBoost "xab.pdf" ["xab"] = 3/2 ∨
        calcFilenameBoost "xab.pdf" ["xab"] = 13/10)
    ∧ calcFilenameBoost "zzz" ["qq"] = 1 := by
  exact ⟨c6_single_token_tiers.1 "A" "a " (by decide),
    c6_single_token_tiers.2.1 "xab.pdf" "xab" (by decide) (by decide),
    c6_single_token_tiers.2.2.1 "zzz" "qq" (by decide) (by decide) (by decide) (by decide)
      (by decide) (by decide)⟩

/-! ## Claim C8 -/

/-- C8: every hit returned by `semantic_search` carries
`score = clamp(original_score * boost, 0, 1)` — hence a score in `[0, 1]`
whatever the raw distance and boost were — and its raw score and boost come
from one of the retrieved hits as `1 - distance` and the filename boost. -/
theorem c8_final_score_clamped :
    ∀ (qfs : List String) (hits : List RawHit) (filters : Filters)
      (r : SearchResultOut),
      r ∈ semanticSearchResults qfs hits filters →
      r.score = clamp01 (r.original_score * r.filename_boost)
      ∧ 0 ≤ r.score ∧ r.score ≤ 1
      ∧ ∃ h ∈ hits, r.original_score = rawScore h.dist
          ∧ r.filename_boost = calcFilenameBoost h.filename qfs := by
  intro qfs hits filters r hmem
  have hsorted : r ∈ sortDesc (hits.map (buildHit qfs)) := by
    unfold semanticSearchResults at hmem
    by_cases hf : filters.isEmpty
    · simpa [hf] using hmem
    · rw [if_neg hf] at hmem
      exact (List.mem_filter.1 hmem).1
  have hbuilt : r ∈ hits.map (buildHit qfs) := (mem_sortDesc r _).1 hsorted
  obtain ⟨h, hh, hr⟩ := List.mem_map.1 hbuilt
  subst hr
  refine ⟨rfl, (clamp01_mem _).1, (clamp01_mem _).2, h, hh, rfl, rfl⟩

/-- Witness for `c8_final_score_clamped` on a one-hit search. -/
theorem c8_final_score_clamped_witness :
    0 ≤ (buildHit [] c8Hit).score ∧ (buildHit [] c8Hit).score ≤ 1 := by
  have h := c8_final_score_clamped [] [c8Hit] [] (buildHit [] c8Hit)
    (List.mem_singleton.mpr rfl)
  exact ⟨h.2.1, h.2.2.1⟩

/-! ## Claim C9 -/

/-- The filter loop keeps exactly the results passing all four checks. -/
lemma mem_applyFilters (results : List SearchResultOut) (fs : Filters)
    (r : SearchResultOut) :
    r ∈ applyFilters results fs ↔
      r ∈ results ∧ passesFiletype fs (pyLower r.filename) = true
      ∧ passesFolder fs (pyLower r.file_path) = true
      ∧ passesAfter fs r.import_time = true
      ∧ passesBefore fs r.import_time = true := by
  rw [applyFilters, List.mem_filter, passesFilters]
  simp [Bool.and_eq_true, and_assoc]

/-- C9: the metadata filters are AND-combined, unknown keys are ignored, the
`filetype` filter retains exactly the hits whose (lowercased) filename
extension equals the requested type, the `folder` filter retains exactly the
hits whose path contains the requested substring, and an empty filter set
returns the input list unchanged, in order. -/
theorem c9_filters_conjunction :
    (∀ results : List SearchResultOut, applyFilters results [] = results)
    ∧ (∀ (results : List SearchResultOut) (r : SearchResultOut),
        r ∈ applyFilters results [("filetype", "pdf")] ↔
          r ∈ results ∧
            (if (pyLower r.filename).data.contains '.' then
              (⟨afterLastDot (pyLower r.filename).data⟩ : String)
             else "") = "pdf")
    ∧ (∀ (results : List SearchResultOut) (v : String) (r : SearchResultOut),
        r ∈ applyFilters results [("folder", v)] ↔
          r ∈ results ∧ pyIn (pyLower v) (pyLower r.file_path) = true)
    ∧ (∀ (results : List SearchResultOut) (fs : Filters),
        (∀ kv ∈ fs, kv.1 ≠ "filetype" ∧ kv.1 ≠ "folder" ∧
          kv.1 ≠ "import_time_after" ∧ kv.1 ≠ "import_time_before") →
        applyFilters results fs = results)
    ∧ (∀ (results : List SearchResultOut) (fs : Filters) (r : SearchResultOut),
        r ∈ applyFilters results fs ↔
          r ∈ results ∧ passesFiletype fs (pyLower r.filename) = true
          ∧ passesFolder fs (pyLower r.file_path) = true
          ∧ passesAfter fs r.import_time = true
          ∧ passesBefore fs r.import_time = true) := by
  refine ⟨fun results => ?_, fun results r => ?_, fun results v r => ?_,
    fun results fs h => ?_, fun results fs r => ?_⟩
  · exact List.filter_eq_self.mpr fun r _ => rfl
  · rw [mem_applyFilters]
    have h1 : passesFolder [("filetype", "pdf")] (pyLower r.file_path) = true := rfl
    have h2 : passesAfter [("filetype", "pdf")] r.import_time = true := rfl
    have h3 : passesBefore [("filetype", "pdf")] r.import_time = true := rfl
    have h4 : passesFiletype [("filetype", "pdf")] (pyLower r.filename) =
        ((if (pyLower r.filename).data.contains '.' then
            (⟨afterLastDot (pyLower r.filename).data⟩ : String)
          else "") == "pdf") := rfl
    rw [h1, h2, h3, h4]
    simp [beq_iff_eq]
  · rw [mem_applyFilters]
    have h1 : passesFiletype [("folder", v)] (pyLower r.filename) = true := rfl
    have h2 : passesAfter [("folder", v)] r.import_time = true := rfl
    have h3 : passesBefore [("folder", v)] r.import_time = true := rfl
    have h4 : passesFolder [("folder", v)] (pyLower r.file_path) =
        pyIn (pyLower v) (pyLower r.file_path) := rfl
    rw [h1, h2, h3, h4]
    simp
  · refine List.filter_eq_self.mpr fun r _ => ?_
    have h1 : fs.lookup "filetype" = none :=
      lookup_none_of_ne _ fs fun kv hm => (h kv hm).1
    have h2 : fs.lookup "folder" = none :=
      lookup_none_of_ne _ fs fun kv hm => (h kv hm).2.1
    have h3 : fs.lookup "import_time_after" = none :=
      lookup_none_of_ne _ fs fun kv hm => (h kv hm).2.2.1
    have h4 : fs.lookup "import_time_before" = none :=
      lookup_none_of_ne _ fs fun kv hm => (h kv hm).2.2.2
    simp [passesFilters, passesFiletype, passesFolder, passesAfter, passesBefore,
      h1, h2, h3, h4]
  · exact mem_applyFilters results fs r

/-- Witness for `c9_filters_conjunction`: unknown keys leave a concrete mixed
list unchanged, and membership under the `filetype` filter is as characterized. -/
theorem c9_filters_conjunction_witness :
    applyFilters [c9Pdf, c9Txt] [("unknown", "x")] = [c9Pdf, c9Txt]
    ∧ (c9Pdf ∈ applyFilters [c9Pdf, c9Txt] [("filetype", "pdf")] ↔
        c9Pdf ∈ [c9Pdf, c9Txt] ∧
          (if (pyLower c9Pdf.filename).data.contains '.' then
            (⟨afterLastDot (pyLower c9Pdf.filename).data⟩ : String)
           else "") = "pdf") := by
  exact ⟨c9_filters_conjunction.2.2.2.1 [c9Pdf, c9Txt] [("unknown", "x")] (by decide),
    c9_filters_conjunction.2.1 [c9Pdf, c9Txt] c9Pdf⟩

/-! ## Claim C10 -/

/-- C10: the boost is first-match-wins, not the best tier over all tokens.
With filename `a.pdf` and token list `["pdf", "a.pdf"]`, the first token only
matches as a loose substring (tier 1.3) even though the second token is an
exact match (tier 2.0 when queried alone), and the returned boost is 1.3. -/
theorem c10_first_match_wins :
    calcFilenameBoost "a.pdf" ["pdf", "a.pdf"] = 13/10
    ∧ calcFilenameBoost "a.pdf" ["a.pdf"] = 2
    ∧ pyIn "pdf" "a.pdf" = true
    ∧ (13/10 : ℚ) ≠ 2 := by
  exact ⟨rfl, rfl, by decide, by norm_num⟩

end SortSeek
